import Mathlib

/-
Verification of the story-execution progress tracker of the Claire console
(`ImplementCodePage`, src/unnamed/part_007, lines 522-1452).

The page is a React component; its relevant state lives in `useState` hooks
and is mutated only by the handlers modelled below.  The embedding follows
the source line by line:

* JavaScript `Record<string, T>` objects are modelled as total functions
  `String → T` (with `?? default` built into the value type where the source
  uses it); the object-spread update `{ ...prev, [k]: v }` is `setKey`.
* JavaScript truthiness of optional strings (`undefined` and `""` are falsy)
  is `truthyS`; the `||` operator on strings is `jsOrS` / `jsOrOpt`.
* The `EventSource` handle is modelled by its observable openness (`esOpen`);
  `close()` sets it to `false` (double close is a no-op, as in the browser).
* `appendLog` prefixes each line with a wall-clock timestamp in the source;
  the timestamp is outside the model, only the line text is kept.
* Network calls are modelled by their outcome (`FetchOutcome`): the parsed
  response body on success, the thrown message on failure.
-/

namespace Claire

/-- JS truthiness of an optional string: `undefined` and `""` are falsy. -/
def truthyS : Option String → Bool
  | some s => s != ""
  | none => false

/-- JS `a || b` where `a` is an optional string and `b` a plain string. -/
def jsOrS (a : Option String) (b : String) : String :=
  match a with
  | some s => if s = "" then b else s
  | none => b

/-- JS `a || b` where both operands are optional strings. -/
def jsOrOpt (a b : Option String) : Option String :=
  match a with
  | some s => if s = "" then b else some s
  | none => b

/-- JS nullish coalescing `a ?? b` on optional strings. -/
def firstSome (a b : Option String) : Option String :=
  match a with
  | some v => some v
  | none => b

/-- JS object-spread update `{ ...m, [k]: v }`, read through key lookup. -/
def setKey {α : Type} (m : String → α) (k : String) (v : α) : String → α :=
  fun x => if x = k then v else m x

/-- Per-story progress record (part_007 lines 664-666): `{ total, ok, errors }`. -/
structure Progress where
  total : Nat
  ok : Nat
  errors : Nat
deriving DecidableEq, Repr

/-- An entry of a batch task result's `events` array, as read by
`summarizeTaskDiagnostics` (part_007 lines 1028-1048): only the `event`,
`name`, `tool_name` and `data.input` / `data.kwargs` fields are consumed. -/
structure BatchEvt where
  event : Option String := none
  name : Option String := none
  tool_name : Option String := none
  data_input : Option String := none
  data_kwargs : Option String := none
deriving DecidableEq, Repr

/-- One entry of `ImplementResult.results` (part_007 lines 566-574). -/
structure TaskResult where
  task_id : Option String := none
  ok : Option Bool := none
  error : Option String := none
  message : Option String := none
  events : Option (List BatchEvt) := none
deriving DecidableEq, Repr

/-- `ImplementResult` (part_007 lines 563-575): the batch response of the
synchronous implement endpoint, also embedded in `story_end` events. -/
structure ImplementResult where
  run_id : String := ""
  story_id : Option String := none
  results : Option (List TaskResult) := none
deriving DecidableEq, Repr

/-- `Story` (part_007 lines 545-555), restricted to the fields the modelled
handlers read: `id`, `story_id` and `title`. -/
structure Story where
  id : Option String := none
  story_id : Option String := none
  title : String := ""
deriving DecidableEq, Repr

/-- `Task` (part_007 lines 536-543), restricted to the fields the modelled
handlers read: `id` and `task_id`. -/
structure Task where
  id : Option String := none
  task_id : Option String := none
deriving DecidableEq, Repr

/-- A parsed stream frame payload, as consumed by `source.onmessage`
(part_007 lines 897-928): the handler reads `evt.event`, `evt.task_id`,
`evt.name`, `evt.ok` (through `!!`, so only its truthiness) and `evt.result`. -/
structure StreamEvt where
  event : Option String := none
  task_id : Option String := none
  name : Option String := none
  ok : Bool := false
  result : Option ImplementResult := none
deriving DecidableEq, Repr

/-- A raw stream frame: either its payload parses as JSON or `JSON.parse`
throws (the thrown message is carried for the log line). -/
inductive Frame where
  | malformed (msg : String)
  | parsed (evt : StreamEvt)
deriving DecidableEq, Repr

/-- The `useState` hooks of `ImplementCodePage` that the execution-progress
subsystem reads and writes (part_007 lines 635-666), plus the plan data
(`stories`, `tasksByStory`) it consults.  `tasksByStory` is the memoised
story-to-tasks map of lines 726-737; it is never written by the handlers. -/
structure PageState where
  selectedRunId : String
  stories : List Story
  tasksByStory : String → List Task
  busy : Bool
  log : List String
  lastResult : Option ImplementResult
  workingStoryTitle : String
  streaming : Bool
  currentTaskId : String
  toolCountsByTask : String → Nat
  latestToolByTask : String → Option String
  esOpen : Bool
  progressByStory : String → Option Progress

/-- `appendLog` (part_007 lines 845-847), with the wall-clock prefix elided. -/
def appendLog (line : String) (st : PageState) : PageState :=
  { st with log := st.log ++ [line] }

/-- `bumpToolCount` (part_007 lines 849-853): skip an empty task id,
increment the task's count, and set the latest tool name only when the
`toolName` argument is truthy. -/
def bumpToolCount (taskId : String) (toolName : Option String) (st : PageState) : PageState :=
  if taskId = "" then st
  else
    let st1 := { st with
      toolCountsByTask := setKey st.toolCountsByTask taskId (st.toolCountsByTask taskId + 1) }
    if truthyS toolName then
      { st1 with latestToolByTask := setKey st1.latestToolByTask taskId (some (jsOrS toolName "")) }
    else st1

/-- `markTaskFinished` (part_007 lines 856-869): on a task completion,
increment the story's `ok` or `errors`; when the story has no ledger entry
yet, seed it with `total` = the number of tasks currently known for the
story and zero counters. -/
def markTaskFinished (storyId : String) (ok : Bool) (st : PageState) : PageState :=
  if storyId = "" then st
  else
    let cur := (st.progressByStory storyId).getD
      { total := (st.tasksByStory storyId).length, ok := 0, errors := 0 }
    let upd : Progress :=
      { total := cur.total
        ok := cur.ok + (if ok then 1 else 0)
        errors := cur.errors + (if ok then 0 else 1) }
    { st with progressByStory := setKey st.progressByStory storyId (some upd) }

/-- `source.onmessage` (part_007 lines 897-928) for one delivered frame of
the stream opened for `storyId`.  A payload that fails `JSON.parse` lands in
the `catch` and only appends the "Bad event payload" log line; a parsed
payload is dispatched on its `event` tag exactly as the source's if-chain. -/
def onMessage (storyId : String) (st : PageState) (f : Frame) : PageState :=
  match f with
  | .malformed msg => appendLog ("Bad event payload: " ++ msg) st
  | .parsed evt =>
    if evt.event = some "on_tool_start" then
      let tId := evt.task_id.getD ""
      let st1 := { st with currentTaskId := tId }
      let st2 := bumpToolCount tId evt.name st1
      appendLog ("▶ tool: " ++ jsOrS evt.name "(unknown)" ++ " on task " ++
        (if tId = "" then "?" else tId)) st2
    else if evt.event = some "on_tool_end" then
      appendLog ("✔ tool done: " ++ jsOrS evt.name "(unknown)") st
    else if evt.event = some "task_complete" then
      let tId := evt.task_id.getD ""
      let st1 := markTaskFinished storyId evt.ok st
      appendLog ("✓ task " ++ (if tId = "" then "?" else tId) ++ " " ++
        (if evt.ok then "OK" else "ERROR")) st1
    else if evt.event = some "story_begin" then
      appendLog "Story started…" st
    else if evt.event = some "story_end" then
      let st1 := { st with lastResult := evt.result.or st.lastResult }
      let st2 := appendLog "Story finished." st1
      { st2 with esOpen := false, streaming := false, busy := false, workingStoryTitle := "" }
    else if truthyS evt.event then
      appendLog ("event: " ++ evt.event.getD "") st
    else st

/-- Outcome of the synchronous fallback `fetch` + `res.json()` pair inside
`doPostFallback` (part_007 lines 956-981): the parsed `ImplementResult` on
success, or the thrown error's message. -/
inductive FetchOutcome where
  | ok (data : ImplementResult)
  | err (msg : String)
deriving DecidableEq, Repr

/-- The success branch of `doPostFallback` (part_007 lines 962-974 and the
`finally` clause 977-980): store the batch result, overwrite the story's
ledger entry with `total = results.length`, `errors` = entries with a truthy
`error` field, `ok` = the rest, log the summary line and clear the
busy/working flags. -/
def doPostFallbackOk (storyId : String) (data : ImplementResult) (st : PageState) : PageState :=
  let rs := data.results.getD []
  let total := rs.length
  let errors := (rs.filter (fun r => truthyS r.error)).length
  let okCount := (rs.filter (fun r => ! truthyS r.error)).length
  let st1 := { st with lastResult := some data }
  let upd : Progress := { total := total, ok := okCount, errors := errors }
  let st2 := { st1 with progressByStory := setKey st1.progressByStory storyId (some upd) }
  let st3 := appendLog ("Story done — tasks: " ++ toString total ++ ", errors: " ++
    toString errors) st2
  { st3 with busy := false, workingStoryTitle := "" }

/-- `doPostFallback` (part_007 lines 956-981) as a function of the fetch
outcome: on success the branch above, on a thrown error the `catch` log line,
with the `finally` clause clearing the busy/working flags either way. -/
def doPostFallback (storyId : String) (outcome : FetchOutcome) (st : PageState) : PageState :=
  match outcome with
  | .ok data => doPostFallbackOk storyId data st
  | .err msg =>
    { (appendLog ("Error: " ++ msg) st) with busy := false, workingStoryTitle := "" }

/-- `stories.find(s => (s.id || s.story_id)?.toString() === storyId)`
(part_007 line 947). -/
def findStory (stories : List Story) (storyId : String) : Option Story :=
  stories.find? (fun s =>
    match jsOrOpt s.id s.story_id with
    | some v => v == storyId
    | none => false)

/-- The prologue of `implementStoryById` (part_007 lines 947-953): set busy,
record the working title (`story?.title ?? storyId`), clear the last result
and the log, and log the opening line. -/
def startAttempt (storyId : String) (st : PageState) : PageState :=
  let title := match findStory st.stories storyId with
    | some s => s.title
    | none => storyId
  appendLog ("Implementing story: " ++ title)
    { st with busy := true, workingStoryTitle := title, lastResult := none, log := [] }

/-- `es.close(); setEs(null)` (part_007 lines 880-883): observable openness
of the page's current `EventSource` drops; closing an already-closed handle
is a no-op, as in the browser. -/
def closeCurrentEs (st : PageState) : PageState :=
  { st with esOpen := false }

/-- The body of `tryStreamStory` once `new EventSource(url)` succeeded
(part_007 lines 888-895): adopt the new open source, raise `streaming`, and
reset the per-task diagnostics and current task id for this attempt. -/
def streamOpened (st : PageState) : PageState :=
  { st with
    esOpen := true
    streaming := true
    toolCountsByTask := fun _ => 0
    latestToolByTask := fun _ => none
    currentTaskId := "" }

/-- `tryStreamStory` (part_007 lines 873-942) with the `new EventSource`
constructor's success abstracted as the `opens` oracle: bail out when no run
is selected, close any previous stream, then either install the new stream
(returning `true`) or, when the constructor throws, return `false` with only
the old stream closed. -/
def tryStreamStory (opens : Bool) (st : PageState) : Bool × PageState :=
  if st.selectedRunId = "" then (false, st)
  else
    let st1 := closeCurrentEs st
    if opens then (true, streamOpened st1) else (false, st1)

/-- `source.onerror` (part_007 lines 930-936) followed by the awaited
fallback: log the hand-off line, close the source, drop `streaming` (busy is
kept), then run `doPostFallback`. -/
def onSseError (storyId : String) (outcome : FetchOutcome) (st : PageState) : PageState :=
  let st1 := appendLog "SSE failed — falling back to POST." st
  let st2 := { st1 with esOpen := false, streaming := false }
  doPostFallback storyId outcome st2

/-- `implementStoryById` (part_007 lines 945-991): guard on a selected run
and a story id, run the attempt prologue, try the stream, and when the
stream could not be started at all run the POST fallback synchronously.
When the stream did start the function returns with `busy` left true; all
further progress arrives through `onMessage` / `onSseError`. -/
def implementStoryById (opens : Bool) (fallback : FetchOutcome) (storyId : String)
    (st : PageState) : PageState :=
  if st.selectedRunId = "" ∨ storyId = "" then st
  else
    let st1 := startAttempt storyId st
    match tryStreamStory opens st1 with
    | (true, st2) => st2
    | (false, st2) => doPostFallback storyId fallback st2

/-- Outcome of pressing the "Implement Selected Story" trigger. -/
inductive ReqOutcome where
  | busyRejected
  | started
deriving DecidableEq, Repr

/-- The user-facing implement-story trigger: the button at part_007 lines
1350-1356 carries `disabled={!selectedRunId || busy}`, so while an attempt
is in flight (`busy`) a further request is rejected without invoking
`implementStoryById`; otherwise the click runs `implementStoryById`. -/
def requestImplementStory (opens : Bool) (fallback : FetchOutcome) (storyId : String)
    (st : PageState) : ReqOutcome × PageState :=
  if st.selectedRunId = "" ∨ st.busy then (ReqOutcome.busyRejected, st)
  else (ReqOutcome.started, implementStoryById opens fallback storyId st)

/-- Deliver a whole sequence of stream frames to `source.onmessage`. -/
def runFrames (storyId : String) (frames : List Frame) (st : PageState) : PageState :=
  frames.foldl (onMessage storyId) st

/-- Result of `summarizeTaskDiagnostics` (part_007 lines 1028-1048). -/
structure TaskDiagSummary where
  totalToolCalls : Nat
  latestName : String
  latestArgsPreview : Option String
deriving DecidableEq, Repr

/-- `summarizeTaskDiagnostics` (part_007 lines 1028-1048): count tool starts
and ends among the batch task result's events, take the larger as the call
count, and pull the latest tool name from the last end event falling back to
the last start event. -/
def summarizeTaskDiagnostics (taskResult : TaskResult) : TaskDiagSummary :=
  let events := taskResult.events.getD []
  let toolStarts := events.filter (fun e => e.event == some "on_tool_start")
  let toolEnds := events.filter (fun e => e.event == some "on_tool_end")
  let totalToolCalls := max toolStarts.length toolEnds.length
  let lastEnd := toolEnds.getLast?
  let lastStart := toolStarts.getLast?
  let latestName := jsOrS (lastEnd.bind (·.name))
    (jsOrS (lastEnd.bind (·.tool_name))
      (jsOrS (lastStart.bind (·.name))
        (jsOrS (lastStart.bind (·.tool_name)) "")))
  let payload := firstSome (lastEnd.bind (·.data_input))
    (firstSome (lastEnd.bind (·.data_kwargs))
      (firstSome (lastStart.bind (·.data_input))
        (lastStart.bind (·.data_kwargs))))
  { totalToolCalls := totalToolCalls, latestName := latestName, latestArgsPreview := payload }

/-- The diagnostic pair shown in a task row (part_007 lines 1376-1384). -/
structure RowDiag where
  totalToolCalls : Nat
  latestName : String
deriving DecidableEq, Repr

/-- The task-row key `task.task_id || task.id || ""` (part_007 lines
1377-1378) used to read the live diagnostics. -/
def taskKey (task : Task) : String :=
  jsOrS task.task_id (jsOrS task.id "")

/-- `lastResult?.results?.find(r => (r.task_id || "") === (task.task_id ||
task.id))` (part_007 lines 1373-1375). -/
def ridFor (lastResult : Option ImplementResult) (task : Task) : Option TaskResult :=
  ((lastResult.bind (·.results)).getD []).find? (fun r =>
    match jsOrOpt task.task_id task.id with
    | some k => jsOrS r.task_id "" == k
    | none => false)

/-- The per-task diagnostic computed for a task row (part_007 lines
1372-1384): start from the batch summary of the matching result entry (zeros
when it is missing), then, only while `streaming` and the task has live data,
replace it with `max` of the call counts and the live latest-tool name when
that is truthy. -/
def taskRowDiag (st : PageState) (task : Task) : RowDiag :=
  let diag : RowDiag := match ridFor st.lastResult task with
    | some r =>
      let s := summarizeTaskDiagnostics r
      { totalToolCalls := s.totalToolCalls, latestName := s.latestName }
    | none => { totalToolCalls := 0, latestName := "" }
  let liveCalls := st.toolCountsByTask (taskKey task)
  let liveLatest := st.latestToolByTask (taskKey task)
  if st.streaming = true ∧ (0 < liveCalls ∨ truthyS liveLatest = true) then
    { totalToolCalls := max diag.totalToolCalls liveCalls
      latestName := jsOrS liveLatest diag.latestName }
  else diag

/-- The "stream never opens, then fallback" execution of `implementStoryById`
(part_007 lines 983-990 with `tryStreamStory` returning `false`): the POST
fallback runs synchronously with outcome `data`. -/
def pathStreamNeverOpens (storyId : String) (data : ImplementResult) (st : PageState) :
    PageState :=
  implementStoryById false (FetchOutcome.ok data) storyId st

/-- The "stream opens, immediately errors, then fallback" execution of
`implementStoryById`: the stream installs (lines 888-895), no frame arrives,
`source.onerror` fires and hands off to the same fallback outcome. -/
def pathStreamOpensThenErrors (storyId : String) (data : ImplementResult) (st : PageState) :
    PageState :=
  onSseError storyId (FetchOutcome.ok data)
    (implementStoryById true (FetchOutcome.ok data) storyId st)

/-- The observable state the spec calls Progress Ledger plus Diagnostics
Aggregator: per-story progress, per-task tool counts, per-task latest tool. -/
def aggTriple (st : PageState) :
    (String → Option Progress) × (String → Nat) × (String → Option String) :=
  (st.progressByStory, st.toolCountsByTask, st.latestToolByTask)

/-- A raw signal arriving on the attempt's `EventSource`: a message frame or
a transport error.  The browser delivers callbacks only while the source is
open; `close()` (readyState CLOSED) suppresses all further delivery. -/
inductive Sig where
  | msg (f : Frame)
  | errSig
deriving DecidableEq, Repr

/-- One attempt's page state together with the number of times the POST
fallback (`doPostFallback`) has been invoked. -/
structure AttemptRun where
  page : PageState
  fallbackCalls : Nat

/-- Delivery of one raw signal during an attempt streaming for `storyId`:
nothing is delivered on a closed source; a frame goes to `source.onmessage`;
an error signal goes to `source.onerror`, which closes the source and invokes
the POST fallback exactly here (part_007 lines 930-936). -/
def deliverSig (storyId : String) (outcome : FetchOutcome) (run : AttemptRun) (sig : Sig) :
    AttemptRun :=
  if run.page.esOpen = true then
    match sig with
    | .msg f => { run with page := onMessage storyId run.page f }
    | .errSig =>
      { page := onSseError storyId outcome run.page
        fallbackCalls := run.fallbackCalls + 1 }
  else run

/-- Deliver a whole sequence of raw signals. -/
def runSignals (storyId : String) (outcome : FetchOutcome) (sigs : List Sig)
    (run : AttemptRun) : AttemptRun :=
  sigs.foldl (deliverSig storyId outcome) run

/-- One whole story execution attempt, instrumented with the number of POST
fallback invocations: the body of `implementStoryById` (part_007 lines
945-991) followed, when the stream installed, by the delivery of the raw
signals the transport produces.  When the stream could not be started no
`EventSource` exists, so no signal is ever delivered and the attempt ends
with the one synchronous fallback call (lines 989-990). -/
def runAttempt (opens : Bool) (outcome : FetchOutcome) (storyId : String)
    (sigs : List Sig) (st : PageState) : AttemptRun :=
  if st.selectedRunId = "" ∨ storyId = "" then { page := st, fallbackCalls := 0 }
  else
    let st1 := startAttempt storyId st
    match tryStreamStory opens st1 with
    | (true, st2) => runSignals storyId outcome sigs { page := st2, fallbackCalls := 0 }
    | (false, st2) => { page := doPostFallback storyId outcome st2, fallbackCalls := 1 }

/-- Whether a frame is a parsed `task_complete` event. -/
def isTaskComplete (f : Frame) : Bool :=
  match f with
  | .parsed e => e.event == some "task_complete"
  | .malformed _ => false

/-- Whether a frame is a parsed `on_tool_start` event whose coerced task id
(`String(evt.task_id ?? "")`) is `t`. -/
def isToolStartFor (t : String) (f : Frame) : Bool :=
  match f with
  | .parsed e => e.event == some "on_tool_start" && e.task_id.getD "" == t
  | .malformed _ => false

/-- Number of `task_complete` frames in a sequence. -/
def countTaskComplete (frames : List Frame) : Nat :=
  frames.countP isTaskComplete

/-- Number of `on_tool_start` frames addressed to task `t`. -/
def countToolStarts (t : String) (frames : List Frame) : Nat :=
  frames.countP (isToolStartFor t)

/-- Bound carried through a stream of frames: the story's known task count
is `tlen` and its ledger entry, when present, has `total = tlen` and at most
`k` completions counted. -/
def LedgerBound (sid : String) (tlen k : Nat) (st : PageState) : Prop :=
  (st.tasksByStory sid).length = tlen ∧
  ∀ p, st.progressByStory sid = some p → p.total = tlen ∧ p.ok + p.errors ≤ k

/-- A concrete page state used by witnesses: run `run1` selected, one story
`s1` with a single task `t1`, everything else at its initial value. -/
def baseState : PageState :=
  { selectedRunId := "run1"
    stories := [{ id := some "s1", title := "Story One" }]
    tasksByStory := fun sid => if sid = "s1" then [{ id := some "t1", task_id := some "t1" }] else []
    busy := false
    log := []
    lastResult := none
    workingStoryTitle := ""
    streaming := false
    currentTaskId := ""
    toolCountsByTask := fun _ => 0
    latestToolByTask := fun _ => none
    esOpen := false
    progressByStory := fun _ => none }

/-- `baseState` while an attempt for `s1` is live on the stream:
`busy` set and the `EventSource` open. -/
def streamingState : PageState :=
  { baseState with busy := true, streaming := true, esOpen := true, workingStoryTitle := "Story One" }

/-- `baseState` with leftover live diagnostics for task `t1` (five recorded
tool calls, latest tool `grep`), as a prior attempt leaves them. -/
def dirtyDiagState : PageState :=
  { baseState with
    toolCountsByTask := fun k => if k = "t1" then 5 else 0
    latestToolByTask := fun k => if k = "t1" then some "grep" else none }

/-- The batch result of spec Scenario B: two task entries with `ok` flags
`true` and `false` and no `error` strings. -/
def scenarioBBatch : ImplementResult :=
  { run_id := "r1", results := some [
      { task_id := some "t1", ok := some true },
      { task_id := some "t2", ok := some false } ] }

/-- A batch result whose single entry for `t1` carries no events. -/
def emptyEventsBatch : ImplementResult :=
  { run_id := "r1", results := some [{ task_id := some "t1", events := some [] }] }

/-- `dirtyDiagState` after the stream was abandoned (`streaming` false) and
the fallback's batch result for `t1` landed: live data for `t1` still held. -/
def mergeViewState : PageState :=
  { dirtyDiagState with lastResult := some emptyEventsBatch }

/-- The task row rendered for `t1`. -/
def mergeViewTask : Task :=
  { id := some "t1", task_id := some "t1" }

/-- A parsed `on_tool_start` frame for task `t1`, tool `grep`. -/
def toolStartFrame : Frame :=
  Frame.parsed { event := some "on_tool_start", task_id := some "t1", name := some "grep" }

/-- A parsed `on_tool_end` frame for task `t1`, tool `grep`. -/
def toolEndFrame : Frame :=
  Frame.parsed { event := some "on_tool_end", task_id := some "t1", name := some "grep" }

/-- A parsed successful `task_complete` frame for task `t1`. -/
def taskDoneFrame : Frame :=
  Frame.parsed { event := some "task_complete", task_id := some "t1", ok := true }

/-- A parsed `story_end` frame embedding `scenarioBBatch`. -/
def storyEndFrame : Frame :=
  Frame.parsed { event := some "story_end", result := some scenarioBBatch }

theorem jsOrS_eq_ite (a : Option String) (b : String) :
    jsOrS a b = if truthyS a = true then a.getD "" else b := by
  cases a with
  | none => simp [jsOrS, truthyS]
  | some s =>
    by_cases h : s = "" <;> simp [jsOrS, truthyS, h]

theorem countP_not_add_countP {α : Type} (p : α → Bool) (l : List α) :
    l.countP (fun a => ! p a) + l.countP p = l.length := by
  induction l with
  | nil => rfl
  | cons a t ih =>
    by_cases h : p a = true <;> simp [List.countP_cons, h] <;> omega

@[simp] theorem appendLog_selectedRunId (l : String) (st : PageState) :
    (appendLog l st).selectedRunId = st.selectedRunId := rfl

@[simp] theorem appendLog_tasksByStory (l : String) (st : PageState) :
    (appendLog l st).tasksByStory = st.tasksByStory := rfl

@[simp] theorem appendLog_busy (l : String) (st : PageState) :
    (appendLog l st).busy = st.busy := rfl

@[simp] theorem appendLog_lastResult (l : String) (st : PageState) :
    (appendLog l st).lastResult = st.lastResult := rfl

@[simp] theorem appendLog_streaming (l : String) (st : PageState) :
    (appendLog l st).streaming = st.streaming := rfl

@[simp] theorem appendLog_toolCountsByTask (l : String) (st : PageState) :
    (appendLog l st).toolCountsByTask = st.toolCountsByTask := rfl

@[simp] theorem appendLog_latestToolByTask (l : String) (st : PageState) :
    (appendLog l st).latestToolByTask = st.latestToolByTask := rfl

@[simp] theorem appendLog_esOpen (l : String) (st : PageState) :
    (appendLog l st).esOpen = st.esOpen := rfl

@[simp] theorem appendLog_progressByStory (l : String) (st : PageState) :
    (appendLog l st).progressByStory = st.progressByStory := rfl

@[simp] theorem appendLog_log (l : String) (st : PageState) :
    (appendLog l st).log = st.log ++ [l] := rfl

@[simp] theorem bumpToolCount_tasksByStory (t : String) (n : Option String) (st : PageState) :
    (bumpToolCount t n st).tasksByStory = st.tasksByStory := by
  unfold bumpToolCount; split_ifs <;> rfl

@[simp] theorem bumpToolCount_progressByStory (t : String) (n : Option String) (st : PageState) :
    (bumpToolCount t n st).progressByStory = st.progressByStory := by
  unfold bumpToolCount; split_ifs <;> rfl

@[simp] theorem bumpToolCount_esOpen (t : String) (n : Option String) (st : PageState) :
    (bumpToolCount t n st).esOpen = st.esOpen := by
  unfold bumpToolCount; split_ifs <;> rfl

@[simp] theorem bumpToolCount_streaming (t : String) (n : Option String) (st : PageState) :
    (bumpToolCount t n st).streaming = st.streaming := by
  unfold bumpToolCount; split_ifs <;> rfl

@[simp] theorem bumpToolCount_busy (t : String) (n : Option String) (st : PageState) :
    (bumpToolCount t n st).busy = st.busy := by
  unfold bumpToolCount; split_ifs <;> rfl

@[simp] theorem bumpToolCount_lastResult (t : String) (n : Option String) (st : PageState) :
    (bumpToolCount t n st).lastResult = st.lastResult := by
  unfold bumpToolCount; split_ifs <;> rfl

theorem bumpToolCount_counts (tid : String) (n : Option String) (st : PageState)
    (t : String) (ht : t ≠ "") :
    (bumpToolCount tid n st).toolCountsByTask t
      = st.toolCountsByTask t + (if tid = t then 1 else 0) := by
  unfold bumpToolCount setKey
  by_cases h0 : tid = ""
  · have hne : ("" : String) ≠ t := fun h => ht h.symm
    simp [h0, hne]
  · by_cases h2 : tid = t
    · subst h2
      by_cases h1 : truthyS n = true <;> simp [h0, h1]
    · have h3 : ¬ (t = tid) := fun h => h2 h.symm
      by_cases h1 : truthyS n = true <;> simp [h0, h1, h2, h3]

@[simp] theorem markTaskFinished_tasksByStory (sid : String) (ok : Bool) (st : PageState) :
    (markTaskFinished sid ok st).tasksByStory = st.tasksByStory := by
  unfold markTaskFinished; split_ifs <;> rfl

@[simp] theorem markTaskFinished_toolCountsByTask (sid : String) (ok : Bool) (st : PageState) :
    (markTaskFinished sid ok st).toolCountsByTask = st.toolCountsByTask := by
  unfold markTaskFinished; split_ifs <;> rfl

@[simp] theorem markTaskFinished_latestToolByTask (sid : String) (ok : Bool) (st : PageState) :
    (markTaskFinished sid ok st).latestToolByTask = st.latestToolByTask := by
  unfold markTaskFinished; split_ifs <;> rfl

@[simp] theorem markTaskFinished_esOpen (sid : String) (ok : Bool) (st : PageState) :
    (markTaskFinished sid ok st).esOpen = st.esOpen := by
  unfold markTaskFinished; split_ifs <;> rfl

@[simp] theorem markTaskFinished_streaming (sid : String) (ok : Bool) (st : PageState) :
    (markTaskFinished sid ok st).streaming = st.streaming := by
  unfold markTaskFinished; split_ifs <;> rfl

@[simp] theorem markTaskFinished_busy (sid : String) (ok : Bool) (st : PageState) :
    (markTaskFinished sid ok st).busy = st.busy := by
  unfold markTaskFinished; split_ifs <;> rfl

@[simp] theorem markTaskFinished_lastResult (sid : String) (ok : Bool) (st : PageState) :
    (markTaskFinished sid ok st).lastResult = st.lastResult := by
  unfold markTaskFinished; split_ifs <;> rfl

theorem markTaskFinished_progress_fresh (sid : String) (ok : Bool) (st : PageState)
    (h : sid ≠ "") (h0 : st.progressByStory sid = none) :
    (markTaskFinished sid ok st).progressByStory sid =
      some { total := (st.tasksByStory sid).length
             ok := if ok then 1 else 0
             errors := if ok then 0 else 1 } := by
  unfold markTaskFinished
  simp [h, h0, setKey]

theorem markTaskFinished_progress_some (sid : String) (ok : Bool) (st : PageState)
    (p : Progress) (h : sid ≠ "") (h0 : st.progressByStory sid = some p) :
    (markTaskFinished sid ok st).progressByStory sid =
      some { total := p.total
             ok := p.ok + (if ok then 1 else 0)
             errors := p.errors + (if ok then 0 else 1) } := by
  unfold markTaskFinished
  simp [h, h0, setKey]

@[simp] theorem runFrames_nil (sid : String) (st : PageState) :
    runFrames sid [] st = st := rfl

@[simp] theorem runFrames_cons (sid : String) (f : Frame) (fs : List Frame) (st : PageState) :
    runFrames sid (f :: fs) st = runFrames sid fs (onMessage sid st f) := rfl

theorem onMessage_tasksByStory (sid : String) (st : PageState) (f : Frame) :
    (onMessage sid st f).tasksByStory = st.tasksByStory := by
  cases f with
  | malformed m => rfl
  | parsed e =>
    dsimp only [onMessage]
    split_ifs <;> simp

theorem onMessage_esOpen_mono (sid : String) (st : PageState) (f : Frame)
    (h : (onMessage sid st f).esOpen = true) : st.esOpen = true := by
  cases f with
  | malformed m => exact h
  | parsed e =>
    dsimp only [onMessage] at h
    split_ifs at h <;> simpa using h

theorem onMessage_progress_not_tc (sid : String) (st : PageState) (f : Frame)
    (h : isTaskComplete f = false) :
    (onMessage sid st f).progressByStory = st.progressByStory := by
  cases f with
  | malformed m => rfl
  | parsed e =>
    dsimp only [onMessage]
    split_ifs <;> simp_all [isTaskComplete]

theorem onMessage_progress_tc (sid : String) (st : PageState) (e : StreamEvt)
    (h : e.event = some "task_complete") :
    (onMessage sid st (Frame.parsed e)).progressByStory
      = (markTaskFinished sid e.ok st).progressByStory := by
  unfold onMessage
  simp [h]

theorem ledgerBound_mono (sid : String) (tlen k k' : Nat) (st : PageState)
    (hk : k ≤ k') (hb : LedgerBound sid tlen k st) : LedgerBound sid tlen k' st :=
  ⟨hb.1, fun p hp => ⟨(hb.2 p hp).1, le_trans (hb.2 p hp).2 hk⟩⟩

theorem ledgerBound_step (sid : String) (tlen k : Nat) (st : PageState) (f : Frame)
    (hsid : sid ≠ "") (hb : LedgerBound sid tlen k st) :
    LedgerBound sid tlen (k + (if isTaskComplete f then 1 else 0)) (onMessage sid st f) := by
  obtain ⟨hlen, hp⟩ := hb
  by_cases htc : isTaskComplete f = true
  · cases f with
    | malformed m => simp [isTaskComplete] at htc
    | parsed e =>
      have he : e.event = some "task_complete" := by
        simpa [isTaskComplete] using htc
      refine ⟨by rw [onMessage_tasksByStory]; exact hlen, ?_⟩
      intro p hq
      rw [onMessage_progress_tc sid st e he] at hq
      cases h0 : st.progressByStory sid with
      | none =>
        rw [markTaskFinished_progress_fresh sid e.ok st hsid h0] at hq
        injection hq with hq
        subst hq
        refine ⟨hlen, ?_⟩
        cases e.ok <;> simp [htc]
      | some q =>
        rw [markTaskFinished_progress_some sid e.ok st q hsid h0] at hq
        injection hq with hq
        subst hq
        obtain ⟨hq1, hq2⟩ := hp q h0
        refine ⟨hq1, ?_⟩
        cases e.ok <;> simp [htc] <;> omega
  · have hf : isTaskComplete f = false := by simpa using htc
    refine ⟨by rw [onMessage_tasksByStory]; exact hlen, ?_⟩
    intro p hq
    rw [onMessage_progress_not_tc sid st f hf] at hq
    obtain ⟨h1, h2⟩ := hp p hq
    refine ⟨h1, ?_⟩
    simp [hf]
    omega

theorem runFrames_ledgerBound (sid : String) (hsid : sid ≠ "") :
    ∀ (frames : List Frame) (st : PageState) (tlen k : Nat),
      LedgerBound sid tlen k st →
      LedgerBound sid tlen (k + countTaskComplete frames) (runFrames sid frames st) := by
  intro frames
  induction frames with
  | nil =>
    intro st tlen k hb
    simpa [countTaskComplete] using hb
  | cons f fs ih =>
    intro st tlen k hb
    have h1 := ledgerBound_step sid tlen k st f hsid hb
    have h2 := ih (onMessage sid st f) tlen _ h1
    rw [runFrames_cons]
    refine ledgerBound_mono sid tlen _ _ _ (le_of_eq ?_) h2
    cases hi : isTaskComplete f <;>
      simp [countTaskComplete, List.countP_cons, hi] <;> omega

theorem onMessage_counts_map_not_start (sid : String) (st : PageState) (e : StreamEvt)
    (h1 : ¬ e.event = some "on_tool_start") :
    (onMessage sid st (Frame.parsed e)).toolCountsByTask = st.toolCountsByTask := by
  dsimp only [onMessage]
  rw [if_neg h1]
  split_ifs <;> simp

theorem onMessage_counts_map_start (sid : String) (st : PageState) (e : StreamEvt)
    (h1 : e.event = some "on_tool_start") :
    (onMessage sid st (Frame.parsed e)).toolCountsByTask
      = (bumpToolCount (e.task_id.getD "") e.name st).toolCountsByTask := by
  dsimp only [onMessage]
  rw [if_pos h1]
  rw [appendLog_toolCountsByTask]
  unfold bumpToolCount
  split_ifs <;> rfl

theorem onMessage_counts (sid : String) (st : PageState) (f : Frame) (t : String)
    (ht : t ≠ "") :
    (onMessage sid st f).toolCountsByTask t
      = st.toolCountsByTask t + (if isToolStartFor t f then 1 else 0) := by
  cases f with
  | malformed m => simp [onMessage, isToolStartFor]
  | parsed e =>
    by_cases h1 : e.event = some "on_tool_start"
    · rw [onMessage_counts_map_start sid st e h1, bumpToolCount_counts _ _ _ t ht]
      have hstart : isToolStartFor t (Frame.parsed e) = (e.task_id.getD "" == t) := by
        simp [isToolStartFor, h1]
      rw [hstart]
      by_cases h7 : e.task_id.getD "" = t <;> simp [h7]
    · rw [onMessage_counts_map_not_start sid st e h1]
      have h2 : isToolStartFor t (Frame.parsed e) = false := by
        simp [isToolStartFor, h1]
      simp [h2]

theorem runFrames_counts (sid t : String) (ht : t ≠ "") :
    ∀ (frames : List Frame) (st : PageState),
      (runFrames sid frames st).toolCountsByTask t
        = st.toolCountsByTask t + countToolStarts t frames := by
  intro frames
  induction frames with
  | nil => intro st; simp [countToolStarts]
  | cons f fs ih =>
    intro st
    rw [runFrames_cons, ih, onMessage_counts sid st f t ht]
    have hc : countToolStarts t (f :: fs)
        = countToolStarts t fs + (if isToolStartFor t f then 1 else 0) := by
      simp [countToolStarts, List.countP_cons]
    rw [hc]
    omega

theorem doPostFallback_esOpen (sid : String) (o : FetchOutcome) (st : PageState) :
    (doPostFallback sid o st).esOpen = st.esOpen := by
  cases o with
  | ok d => rfl
  | err m => rfl

theorem onSseError_esOpen (sid : String) (o : FetchOutcome) (st : PageState) :
    (onSseError sid o st).esOpen = false := by
  unfold onSseError
  rw [doPostFallback_esOpen]

theorem deliverSig_invariant (sid : String) (o : FetchOutcome) (run : AttemptRun) (s : Sig)
    (h1 : run.fallbackCalls ≤ 1) (h2 : run.page.esOpen = true → run.fallbackCalls = 0) :
    (deliverSig sid o run s).fallbackCalls ≤ 1 ∧
      ((deliverSig sid o run s).page.esOpen = true → (deliverSig sid o run s).fallbackCalls = 0) := by
  unfold deliverSig
  split_ifs with hopen
  · cases s with
    | msg f =>
      refine ⟨h1, fun he => ?_⟩
      exact h2 (onMessage_esOpen_mono sid run.page f he)
    | errSig =>
      refine ⟨?_, fun he => ?_⟩
      · have h0 := h2 hopen
        show run.fallbackCalls + 1 ≤ 1
        omega
      · exfalso
        have hfalse : (onSseError sid o run.page).esOpen = true := he
        rw [onSseError_esOpen] at hfalse
        simp at hfalse
  · exact ⟨h1, h2⟩

theorem runSignals_invariant (sid : String) (o : FetchOutcome) :
    ∀ (sigs : List Sig) (run : AttemptRun),
      run.fallbackCalls ≤ 1 → (run.page.esOpen = true → run.fallbackCalls = 0) →
      (runSignals sid o sigs run).fallbackCalls ≤ 1 := by
  intro sigs
  induction sigs with
  | nil => intro run h1 _; exact h1
  | cons s ss ih =>
    intro run h1 h2
    obtain ⟨h3, h4⟩ := deliverSig_invariant sid o run s h1 h2
    exact ih (deliverSig sid o run s) h3 h4

/-- Claim C1: while an attempt is in the Streaming state (the `EventSource`
is open, `streaming` and `busy` are set), a further implement-story request
is rejected by the busy guard (`disabled={!selectedRunId || busy}` on the
trigger) without invoking `implementStoryById`, so the Progress Ledger
(`progressByStory`) and the Diagnostics Aggregator (`toolCountsByTask`,
`latestToolByTask`) are left exactly as they were. -/
theorem c1_second_request_busy_rejected (opens : Bool) (o : FetchOutcome) (sid : String)
    (st : PageState) (hes : st.esOpen = true) (hstream : st.streaming = true)
    (hbusy : st.busy = true) :
    requestImplementStory opens o sid st = (ReqOutcome.busyRejected, st) ∧
    (requestImplementStory opens o sid st).2.progressByStory = st.progressByStory ∧
    (requestImplementStory opens o sid st).2.toolCountsByTask = st.toolCountsByTask ∧
    (requestImplementStory opens o sid st).2.latestToolByTask = st.latestToolByTask := by
  have h : requestImplementStory opens o sid st = (ReqOutcome.busyRejected, st) := by
    unfold requestImplementStory
    rw [if_pos (Or.inr hbusy)]
  exact ⟨h, by rw [h], by rw [h], by rw [h]⟩

/-- Concrete instance of C1: a second request for `s1` while `streamingState`
is mid-stream is rejected and the state is untouched. -/
theorem c1_second_request_busy_rejected_witness :
    streamingState.esOpen = true ∧ streamingState.streaming = true ∧
      streamingState.busy = true ∧
      requestImplementStory true (FetchOutcome.ok scenarioBBatch) "s1" streamingState
        = (ReqOutcome.busyRejected, streamingState) :=
  ⟨rfl, rfl, rfl,
    (c1_second_request_busy_rejected true (FetchOutcome.ok scenarioBBatch) "s1"
      streamingState rfl rfl rfl).1⟩

/-- Claim C7: across one story execution attempt the POST fallback is invoked
at most once, however many raw error signals the transport produces: an error
signal is only delivered while the `EventSource` is open, and `source.onerror`
closes it before running the fallback; on the never-opened path the single
synchronous fallback is the whole attempt. -/
theorem c7_fallback_at_most_once (opens : Bool) (o : FetchOutcome) (sid : String)
    (sigs : List Sig) (st : PageState) :
    (runAttempt opens o sid sigs st).fallbackCalls ≤ 1 := by
  unfold runAttempt
  split_ifs with hguard
  · show (0 : Nat) ≤ 1
    decide
  · unfold tryStreamStory
    dsimp only
    by_cases h1 : (startAttempt sid st).selectedRunId = ""
    · rw [if_pos h1]
    · rw [if_neg h1]
      by_cases h2 : opens = true
      · rw [if_pos h2]
        show (runSignals sid o sigs
          { page := streamOpened (closeCurrentEs (startAttempt sid st))
            fallbackCalls := 0 }).fallbackCalls ≤ 1
        exact runSignals_invariant sid o sigs _ (Nat.zero_le 1) (fun _ => rfl)
      · rw [if_neg h2]

/-- Claim C9: a frame whose payload fails to parse only appends the
"Bad event payload" log line: the subscription (`esOpen`, `streaming`), the
busy flag, the Progress Ledger and the Diagnostics Aggregator are untouched,
so a malformed frame never aborts the attempt. -/
theorem c9_malformed_frame_logged_only (sid msg : String) (st : PageState) :
    (onMessage sid st (Frame.malformed msg)).esOpen = st.esOpen ∧
    (onMessage sid st (Frame.malformed msg)).streaming = st.streaming ∧
    (onMessage sid st (Frame.malformed msg)).busy = st.busy ∧
    (onMessage sid st (Frame.malformed msg)).progressByStory = st.progressByStory ∧
    (onMessage sid st (Frame.malformed msg)).toolCountsByTask = st.toolCountsByTask ∧
    (onMessage sid st (Frame.malformed msg)).latestToolByTask = st.latestToolByTask ∧
    (onMessage sid st (Frame.malformed msg)).lastResult = st.lastResult ∧
    (onMessage sid st (Frame.malformed msg)).log
      = st.log ++ ["Bad event payload: " ++ msg] :=
  ⟨rfl, rfl, rfl, rfl, rfl, rfl, rfl, rfl⟩

/-- Claim C10: a `story_end` frame adopts the embedded result as the last
result when present, closes the subscription and clears the streaming, busy
and working flags, and leaves the Progress Ledger and the per-task tool
diagnostics untouched. -/
theorem c10_story_end_frame_effect (sid : String) (st : PageState) (e : StreamEvt)
    (h : e.event = some "story_end") :
    (onMessage sid st (Frame.parsed e)).progressByStory = st.progressByStory ∧
    (onMessage sid st (Frame.parsed e)).toolCountsByTask = st.toolCountsByTask ∧
    (onMessage sid st (Frame.parsed e)).latestToolByTask = st.latestToolByTask ∧
    (onMessage sid st (Frame.parsed e)).lastResult = e.result.or st.lastResult ∧
    (onMessage sid st (Frame.parsed e)).esOpen = false ∧
    (onMessage sid st (Frame.parsed e)).streaming = false ∧
    (onMessage sid st (Frame.parsed e)).busy = false ∧
    (onMessage sid st (Frame.parsed e)).workingStoryTitle = "" ∧
    (onMessage sid st (Frame.parsed e)).log = st.log ++ ["Story finished."] := by
  dsimp only [onMessage]
  rw [if_neg (by rw [h]; decide), if_neg (by rw [h]; decide), if_neg (by rw [h]; decide),
    if_neg (by rw [h]; decide), if_pos h]
  exact ⟨rfl, rfl, rfl, rfl, rfl, rfl, rfl, rfl, rfl⟩

/-- Concrete instance of C10: the `story_end` frame embedding `scenarioBBatch`
clears `busy` and keeps the ledger of `streamingState`. -/
theorem c10_story_end_frame_effect_witness :
    (onMessage "s1" streamingState storyEndFrame).busy = false ∧
    (onMessage "s1" streamingState storyEndFrame).progressByStory
      = streamingState.progressByStory :=
  ⟨(c10_story_end_frame_effect "s1" streamingState
      { event := some "story_end", result := some scenarioBBatch } rfl).2.2.2.2.2.2.1,
   (c10_story_end_frame_effect "s1" streamingState
      { event := some "story_end", result := some scenarioBBatch } rfl).1⟩

/-- Counterexample to claim C8 as stated: handling
`on_tool_end{task_id: "t1", tool_name: "grep"}` does not set the task's
`latestToolByTask` entry to the event's tool name — the handler only logs. -/
theorem c8_tool_end_counterexample :
    (onMessage "s1" baseState toolEndFrame).latestToolByTask "t1" = none ∧
    ¬ ((onMessage "s1" baseState toolEndFrame).latestToolByTask "t1" = some "grep") := by
  constructor
  · rfl
  · decide

/-- Claim C8 as amended: handling an `on_tool_end` frame appends the
"tool done" log line and changes nothing else — in particular it updates
neither `latestToolByTask` nor `toolCountsByTask`. -/
theorem c8_tool_end_only_logs (sid : String) (st : PageState) (e : StreamEvt)
    (h : e.event = some "on_tool_end") :
    (onMessage sid st (Frame.parsed e)).latestToolByTask = st.latestToolByTask ∧
    (onMessage sid st (Frame.parsed e)).toolCountsByTask = st.toolCountsByTask ∧
    (onMessage sid st (Frame.parsed e)).progressByStory = st.progressByStory ∧
    (onMessage sid st (Frame.parsed e)).esOpen = st.esOpen ∧
    (onMessage sid st (Frame.parsed e)).streaming = st.streaming ∧
    (onMessage sid st (Frame.parsed e)).busy = st.busy ∧
    (onMessage sid st (Frame.parsed e)).lastResult = st.lastResult ∧
    (onMessage sid st (Frame.parsed e)).log
      = st.log ++ ["✔ tool done: " ++ jsOrS e.name "(unknown)"] := by
  dsimp only [onMessage]
  rw [if_neg (by rw [h]; decide), if_pos h]
  exact ⟨rfl, rfl, rfl, rfl, rfl, rfl, rfl, rfl⟩

/-- Counterexample to claim C4 as stated: from a state with leftover live
diagnostics (five calls recorded for `t1`), the "stream never opens" path
keeps them (the per-task reset at stream installation never runs) while the
"opens, then errors" path clears them, so the two terminal
Ledger/Aggregator states differ. -/
theorem c4_dirty_state_counterexample :
    ¬ (aggTriple (pathStreamNeverOpens "s1" scenarioBBatch dirtyDiagState)
        = aggTriple (pathStreamOpensThenErrors "s1" scenarioBBatch dirtyDiagState)) := by
  intro h
  have h5 : (pathStreamNeverOpens "s1" scenarioBBatch dirtyDiagState).toolCountsByTask "t1"
      = 5 := rfl
  have h0 : (pathStreamOpensThenErrors "s1" scenarioBBatch dirtyDiagState).toolCountsByTask "t1"
      = 0 := rfl
  have hq := congrArg (fun x => x.2.1 "t1") h
  simp only [aggTriple] at hq
  rw [h5, h0] at hq
  exact absurd hq (by decide)

/-- Claim C4 as amended: for a fixed batch result, the "stream never opens"
path and the "stream opens, immediately errors" path reach the same terminal
Progress Ledger unconditionally, and the same full Ledger/Aggregator triple
provided the attempt starts with an empty aggregator (as on a first attempt);
the difference in general is only the skipped reset on the never-opened path. -/
theorem c4_fallback_paths_ledger_always_aggregator_clean (sid : String)
    (data : ImplementResult) (st : PageState)
    (hrun : ¬ st.selectedRunId = "") (hsid : ¬ sid = "") :
    (pathStreamNeverOpens sid data st).progressByStory
        = (pathStreamOpensThenErrors sid data st).progressByStory ∧
    (st.toolCountsByTask = (fun _ => 0) → st.latestToolByTask = (fun _ => none) →
      aggTriple (pathStreamNeverOpens sid data st)
        = aggTriple (pathStreamOpensThenErrors sid data st)) := by
  constructor
  · simp [pathStreamNeverOpens, pathStreamOpensThenErrors, implementStoryById, tryStreamStory,
      startAttempt, closeCurrentEs, streamOpened, onSseError, doPostFallback, doPostFallbackOk,
      appendLog, hrun, hsid]
  · intro hc hl
    simp [pathStreamNeverOpens, pathStreamOpensThenErrors, implementStoryById, tryStreamStory,
      startAttempt, closeCurrentEs, streamOpened, onSseError, doPostFallback, doPostFallbackOk,
      appendLog, aggTriple, hrun, hsid, hc, hl]

/-- Concrete instance of the amended C4: from the dirty-aggregator state the
ledgers still agree, and from the clean `baseState` both paths agree on the
whole observable triple. -/
theorem c4_fallback_paths_ledger_always_aggregator_clean_witness :
    (pathStreamNeverOpens "s1" scenarioBBatch dirtyDiagState).progressByStory
        = (pathStreamOpensThenErrors "s1" scenarioBBatch dirtyDiagState).progressByStory ∧
    aggTriple (pathStreamNeverOpens "s1" scenarioBBatch baseState)
      = aggTriple (pathStreamOpensThenErrors "s1" scenarioBBatch baseState) :=
  ⟨(c4_fallback_paths_ledger_always_aggregator_clean "s1" scenarioBBatch dirtyDiagState
      (by decide) (by decide)).1,
   (c4_fallback_paths_ledger_always_aggregator_clean "s1" scenarioBBatch baseState
      (by decide) (by decide)).2 rfl rfl⟩

/-- Counterexample to claim C6 as stated: once `streaming` is false (the
stream was abandoned and the fallback's batch result landed), the task row
shows the batch summary alone — here `0` tool calls and an empty latest tool
name although the live aggregator still holds `5` calls and `grep`, so the
shown count is **not** `max(live, batch)` and regresses below the live value. -/
theorem c6_not_streaming_counterexample :
    (taskRowDiag mergeViewState mergeViewTask).totalToolCalls = 0 ∧
    (taskRowDiag mergeViewState mergeViewTask).latestName = "" ∧
    mergeViewState.toolCountsByTask (taskKey mergeViewTask) = 5 ∧
    ¬ ((taskRowDiag mergeViewState mergeViewTask).totalToolCalls
        = max 0 (mergeViewState.toolCountsByTask (taskKey mergeViewTask))) := by
  refine ⟨rfl, rfl, rfl, ?_⟩
  decide

/-- Claim C6 as amended: while the stream is open (`streaming` true), a task
row with live data shows `call_count = max(batch call_count, live call_count)`
— never below the live value — and shows the live latest tool name when one
is set, the batch latest name otherwise. -/
theorem c6_merge_law_while_streaming (st : PageState) (task : Task) (r : TaskResult)
    (hstream : st.streaming = true)
    (hrid : ridFor st.lastResult task = some r)
    (hlive : 0 < st.toolCountsByTask (taskKey task)
      ∨ truthyS (st.latestToolByTask (taskKey task)) = true) :
    (taskRowDiag st task).totalToolCalls
        = max (summarizeTaskDiagnostics r).totalToolCalls
            (st.toolCountsByTask (taskKey task)) ∧
    (taskRowDiag st task).latestName
        = (if truthyS (st.latestToolByTask (taskKey task)) = true
           then (st.latestToolByTask (taskKey task)).getD ""
           else (summarizeTaskDiagnostics r).latestName) := by
  unfold taskRowDiag
  rw [hrid]
  dsimp only
  rw [if_pos ⟨hstream, hlive⟩]
  exact ⟨rfl, jsOrS_eq_ite _ _⟩

/-- Concrete instance of the amended C6: with the stream still open, the row
for `t1` shows `max(batch 0, live 5) = 5` calls. -/
theorem c6_merge_law_while_streaming_witness :
    (taskRowDiag { mergeViewState with streaming := true } mergeViewTask).totalToolCalls
      = 5 := by
  have h := c6_merge_law_while_streaming { mergeViewState with streaming := true }
    mergeViewTask { task_id := some "t1", events := some [] } rfl rfl
    (Or.inl (by decide))
  rw [h.1]
  decide

/-- Counterexample to claim C2 as stated: for fallback results
`[{task_id: t1, ok: true}, {task_id: t2, ok: false}]` with no `error` strings
the ledger becomes `{total: 2, ok: 2, errors: 0}`, not the claimed
`{total: 2, ok: 1, errors: 1}` — `doPostFallback` counts by the truthiness of
each entry's `error` field and ignores the `ok` field. -/
theorem c2_ok_field_counterexample :
    (doPostFallbackOk "s1" scenarioBBatch baseState).progressByStory "s1"
        = some { total := 2, ok := 2, errors := 0 } ∧
    ¬ ((doPostFallbackOk "s1" scenarioBBatch baseState).progressByStory "s1"
        = some { total := 2, ok := 1, errors := 1 }) := by
  constructor
  · rfl
  · decide

/-- Claim C2 as amended: the fallback path overwrites the story's ledger
entry with `total = length(results)`, `errors` = the number of entries whose
`error` field is a truthy (non-empty) string, `ok` = the number of the
remaining entries; `ok + errors = total`, and the written entry does not
depend on the prior state — a full overwrite of any partial live increments. -/
theorem c2_fallback_ledger_counts_error_field (sid : String) (data : ImplementResult)
    (st st' : PageState) :
    (doPostFallbackOk sid data st).progressByStory sid =
      some { total := (data.results.getD []).length
             ok := (data.results.getD []).countP (fun r => ! truthyS r.error)
             errors := (data.results.getD []).countP (fun r => truthyS r.error) } ∧
    (data.results.getD []).countP (fun r => ! truthyS r.error)
        + (data.results.getD []).countP (fun r => truthyS r.error)
      = (data.results.getD []).length ∧
    (doPostFallbackOk sid data st).progressByStory sid
      = (doPostFallbackOk sid data st').progressByStory sid := by
  refine ⟨?_, countP_not_add_countP _ _, ?_⟩
  · unfold doPostFallbackOk
    simp [setKey, List.countP_eq_length_filter]
  · unfold doPostFallbackOk
    simp [setKey]

/-- Counterexample to claim C3 as stated: on a story with one known task,
two `task_complete` events drive the ledger to `{total: 1, ok: 2, errors: 0}`
with `ok + errors = 2 > 1 = total` — `markTaskFinished` never bounds the
counters by `total`. -/
theorem c3_duplicate_complete_counterexample :
    (runFrames "s1" [taskDoneFrame, taskDoneFrame] baseState).progressByStory "s1"
        = some { total := 1, ok := 2, errors := 0 } ∧
    ¬ ((2 : Nat) + 0 ≤ 1) := by
  constructor
  · rfl
  · decide

/-- Claim C3 as amended: provided the story starts the attempt with a fresh
ledger entry and the stream delivers at most as many `task_complete` events
as the story has known tasks (at most one per task), then after every prefix
of the event sequence the story's ledger satisfies `ok + errors ≤ total`,
with `total` fixed at the story's known task count. -/
theorem c3_ledger_invariant_bounded (sid : String) (frames : List Frame) (st : PageState)
    (n : Nat) (hsid : sid ≠ "") (hfresh : st.progressByStory sid = none)
    (hcount : countTaskComplete frames ≤ (st.tasksByStory sid).length) :
    ∀ p, (runFrames sid (frames.take n) st).progressByStory sid = some p →
      p.ok + p.errors ≤ p.total := by
  have hb0 : LedgerBound sid (st.tasksByStory sid).length 0 st :=
    ⟨rfl, fun p hp => by rw [hfresh] at hp; cases hp⟩
  have h1 := runFrames_ledgerBound sid hsid (frames.take n) st
    ((st.tasksByStory sid).length) 0 hb0
  intro p hp
  obtain ⟨hlen, hps⟩ := h1
  obtain ⟨ht, hs⟩ := hps p hp
  have hsplit : countTaskComplete frames
      = countTaskComplete (frames.take n) + countTaskComplete (frames.drop n) := by
    unfold countTaskComplete
    rw [← List.countP_append, List.take_append_drop]
  omega

/-- Concrete instance of the amended C3: one tool start and one completion on
the one-task story `s1` keep the ledger at `{total: 1, ok: 1, errors: 0}`,
within the bound. -/
theorem c3_ledger_invariant_bounded_witness :
    (runFrames "s1" ([toolStartFrame, taskDoneFrame].take 2) baseState).progressByStory "s1"
        = some { total := 1, ok := 1, errors := 0 } ∧
    (1 : Nat) + 0 ≤ 1 :=
  ⟨rfl, c3_ledger_invariant_bounded "s1" [toolStartFrame, taskDoneFrame] baseState 2
      (by decide) rfl (by decide) { total := 1, ok := 1, errors := 0 } rfl⟩

/-- Claim C5: starting from the per-task diagnostics reset performed when the
stream opens, a task's live tool-call count equals exactly the number of
`on_tool_start` frames addressed to it (for a non-empty task id), whatever
other frames — `on_tool_end` included — are interleaved. -/
theorem c5_tool_counts_equal_starts (sid t : String) (frames : List Frame) (st : PageState)
    (ht : t ≠ "") :
    (runFrames sid frames (streamOpened st)).toolCountsByTask t
      = countToolStarts t frames := by
  rw [runFrames_counts sid t ht frames (streamOpened st)]
  show 0 + countToolStarts t frames = countToolStarts t frames
  omega

/-- Concrete instance of C5: two starts, one end and one completion for `t1`
leave its live count at exactly 2. -/
theorem c5_tool_counts_equal_starts_witness :
    (runFrames "s1" [toolStartFrame, toolEndFrame, toolStartFrame, taskDoneFrame]
        (streamOpened baseState)).toolCountsByTask "t1"
      = countToolStarts "t1" [toolStartFrame, toolEndFrame, toolStartFrame, taskDoneFrame] ∧
    countToolStarts "t1" [toolStartFrame, toolEndFrame, toolStartFrame, taskDoneFrame] = 2 :=
  ⟨c5_tool_counts_equal_starts "s1" "t1"
      [toolStartFrame, toolEndFrame, toolStartFrame, taskDoneFrame] baseState (by decide),
   by decide⟩

/-- Concrete instance of the amended C8: the `on_tool_end` frame for `t1`
leaves the whole diagnostics maps of `streamingState` unchanged. -/
theorem c8_tool_end_only_logs_witness :
    (onMessage "s1" streamingState toolEndFrame).toolCountsByTask
        = streamingState.toolCountsByTask ∧
    (onMessage "s1" streamingState toolEndFrame).latestToolByTask
        = streamingState.latestToolByTask :=
  ⟨(c8_tool_end_only_logs "s1" streamingState
      { event := some "on_tool_end", task_id := some "t1", name := some "grep" } rfl).2.1,
   (c8_tool_end_only_logs "s1" streamingState
      { event := some "on_tool_end", task_id := some "t1", name := some "grep" } rfl).1⟩

end Claire
